import Mathlib

/-!
Shallow embedding of the openclaw-face status pipeline.

The poller side is translated from the `useStatusPolling` hook: a single
fetch attempt maps an HTTP outcome to an update of the hook's
`status` / `connectionState` pair, and the start/stop control functions
manage a fixed-rate interval timer.  The animator side is translated from
the `HeartbeatCanvas` p5 sketch and `sketches/heartbeat.ts`: the per-frame
draw update of the sketch state and the props-change update that selects a
target visual state and triggers transitions.
-/

/-- Heartbeat animation states, from the face page `types.ts`
(`HeartbeatState`). -/
inductive HeartbeatState where
  | idle
  | busy
  | disconnected
  deriving DecidableEq, Repr

/-- Connection state for polling, from the face page `types.ts`
(`ConnectionState`).  `lastSuccessTime` is an epoch-milliseconds clock
reading, modelled as a natural number. -/
structure ConnectionState where
  connected : Bool
  lastSuccessTime : Nat
  failureCount : Nat
  deriving DecidableEq, Repr

/-- Default connection state, from the face page `types.ts`
(`defaultConnectionState`): `connected: true, lastSuccessTime: 0,
failureCount: 0`. -/
def defaultConnectionState : ConnectionState :=
  { connected := true, lastSuccessTime := 0, failureCount := 0 }

/-- Agent status as declared in the face page `types.ts`: required `busy`
and `ts`, optional `sessionKey` and `source`.  The animator consumes this
shape (it only ever reads `busy`). -/
structure AgentStatus where
  busy : Bool
  ts : ℚ
  sessionKey : Option String
  source : Option String
  deriving DecidableEq, Repr

namespace Poller

/-- JSON primitive values as distinguished by the hook's `typeof` checks:
booleans, numbers (modelled as rationals, since JavaScript numbers need not
be integers), strings, and null. -/
inductive Json where
  | bool (b : Bool)
  | num (q : ℚ)
  | str (s : String)
  | null
  deriving DecidableEq, Repr

/-- A parsed JSON status document as the hook accesses it: each field the
code (or the wire contract) mentions is either absent (`none`, i.e.
`undefined`) or some JSON value.  The hook reads `busy`, `model`, `ts` and
`taskId`; the wire contract additionally names `sessionKey` and `source`,
which the hook never consults. -/
structure JsonDoc where
  busy : Option Json
  model : Option Json
  ts : Option Json
  taskId : Option Json
  sessionKey : Option Json
  source : Option Json
  deriving DecidableEq, Repr

/-- The status record the hook actually constructs on a successful fetch
(`const newStatus: AgentStatus = { busy, model, ts, taskId }` in
`useStatusPolling.ts`).  `taskId` is copied through without any type
check, so it stays a raw optional JSON value. -/
structure AgentStatus where
  busy : Bool
  model : String
  ts : ℚ
  taskId : Option Json
  deriving DecidableEq, Repr

/-- Validation step of `fetchStatus` in `useStatusPolling.ts`:
`if (typeof data.busy !== 'boolean' || typeof data.model !== 'string' ||
typeof data.ts !== 'number') throw`, otherwise build the new status from
`data.busy`, `data.model`, `data.ts`, `data.taskId`.  Returns `none` on
the throwing path. -/
def validateDoc (d : JsonDoc) : Option AgentStatus :=
  match d.busy, d.model, d.ts with
  | some (.bool b), some (.str m), some (.num t) =>
      some { busy := b, model := m, ts := t, taskId := d.taskId }
  | _, _, _ => none

/-- Outcome of the HTTP GET performed by one fetch attempt: the transport
throws (`netError`), or a response arrives with an `ok` flag (2xx) and a
body that either parses as a JSON document or fails to parse (`none`). -/
inductive FetchResult where
  | netError
  | response (ok : Bool) (body : Option JsonDoc)
  deriving DecidableEq, Repr

/-- Observable state of the hook: the last successfully parsed status
(`null` before the first success) and the connection state. -/
structure PollerState where
  status : Option AgentStatus
  conn : ConnectionState
  deriving DecidableEq, Repr

/-- State of the hook before any fetch attempt: `status = null` and the
default connection state. -/
def initialPollerState : PollerState :=
  { status := none, conn := defaultConnectionState }

/-- Connection-state update performed in the `catch` block of
`fetchStatus`: `newFailureCount = prev.failureCount + 1`, `connected =
newFailureCount < maxFailures`, `lastSuccessTime` unchanged. -/
def failConn (maxFailures : Nat) (c : ConnectionState) : ConnectionState :=
  { connected := decide (c.failureCount + 1 < maxFailures),
    lastSuccessTime := c.lastSuccessTime,
    failureCount := c.failureCount + 1 }

/-- One fetch attempt of `fetchStatus` in `useStatusPolling.ts`.  A network
error, a non-ok response, an unparsable body, or a document failing
validation all reach the `catch` block (`failConn`); a validated document
overwrites `status` and resets the connection state with `lastSuccessTime =
Date.now()`, modelled by the `now` argument. -/
def fetchStatus (maxFailures : Nat) (now : Nat) (r : FetchResult)
    (s : PollerState) : PollerState :=
  match r with
  | .netError => { s with conn := failConn maxFailures s.conn }
  | .response ok body =>
    if ok then
      match body with
      | none => { s with conn := failConn maxFailures s.conn }
      | some d =>
        match validateDoc d with
        | some st =>
            { status := some st,
              conn := { connected := true, lastSuccessTime := now,
                        failureCount := 0 } }
        | none => { s with conn := failConn maxFailures s.conn }
    else { s with conn := failConn maxFailures s.conn }

/-- Decides whether a fetch outcome takes the `catch` path of
`fetchStatus` (network error, non-2xx, JSON parse error, or schema
validation error). -/
def isFailure (r : FetchResult) : Bool :=
  match r with
  | .netError => true
  | .response ok body =>
    if ok then
      match body with
      | none => true
      | some d => (validateDoc d).isNone
    else true

/-- Folds a sequence of fetch attempts (each with its own clock reading)
over the poller state, in order. -/
def stepList (maxFailures : Nat) (events : List (Nat × FetchResult))
    (s : PollerState) : PollerState :=
  events.foldl (fun s e => fetchStatus maxFailures e.1 e.2 s) s

end Poller

namespace Poller

/-- Scheduling state of the hook: whether an interval timer is currently
registered (`intervalIdRef.current !== null`), the `isPollingRef` flag, and
the number of fetch attempts initiated so far (what the hook's tests count
through their mocked `fetch`). -/
structure PollerLoop where
  timerActive : Bool
  isPolling : Bool
  fetchCount : Nat
  deriving DecidableEq, Repr

/-- Scheduling state before `startPolling` has ever run: no timer, not
polling, no fetch initiated. -/
def initialLoop : PollerLoop :=
  { timerActive := false, isPolling := false, fetchCount := 0 }

/-- The hook's `startPolling`: a no-op when already polling, otherwise it
marks the hook as polling, performs one immediate fetch, and registers the
interval timer. -/
def startPolling (p : PollerLoop) : PollerLoop :=
  if p.isPolling then p
  else { timerActive := true, isPolling := true,
         fetchCount := p.fetchCount + 1 }

/-- One firing of the interval timer registered by `setInterval`: it
initiates a fetch exactly when a timer is registered, and elapsing time
with no registered timer initiates nothing. -/
def timerTick (p : PollerLoop) : PollerLoop :=
  if p.timerActive then { p with fetchCount := p.fetchCount + 1 } else p

/-- The hook's `stopPolling` (also run by the unmount cleanup): clears the
interval timer when one is registered and resets the polling flag. -/
def stopPolling (p : PollerLoop) : PollerLoop :=
  { timerActive := false, isPolling := false, fetchCount := p.fetchCount }

end Poller

/-- Ease in-out cubic from `sketches/heartbeat.ts` (`easeInOutCubic`),
also inlined in the `HeartbeatCanvas` draw loop:
`t < 0.5 ? 4*t*t*t : 1 - Math.pow(-2*t + 2, 3) / 2`. -/
def easeInOutCubic (t : ℚ) : ℚ :=
  if t < 1 / 2 then 4 * t ^ 3 else 1 - (-2 * t + 2) ^ 3 / 2

/-- RGB color triple, standing in for a `p5.Color` in RGB mode. -/
structure Color where
  r : ℚ
  g : ℚ
  b : ℚ
  deriving DecidableEq, Repr

/-- Linear interpolation `p5.lerp(start, stop, amt) = start + (stop -
start) * amt`. -/
def lerp (a b amt : ℚ) : ℚ := a + (b - a) * amt

/-- Component-wise linear color interpolation, as `p5.lerpColor` in RGB
mode (and as the explicit `lerpColor` helper in `sketches/heartbeat.ts`). -/
def lerpColor (c1 c2 : Color) (amt : ℚ) : Color :=
  { r := lerp c1.r c2.r amt, g := lerp c1.g c2.g amt,
    b := lerp c1.b c2.b amt }

/-- Sketch state of the heartbeat animation, from the `stateRef` record of
`HeartbeatCanvas` (equivalently `SketchState` in `sketches/heartbeat.ts`). -/
structure SketchState where
  phase : ℚ
  time : ℚ
  currentState : HeartbeatState
  targetState : HeartbeatState
  transitionProgress : ℚ
  currentColor : Color
  targetColor : Color
  currentAmplitude : ℚ
  targetAmplitude : ℚ
  width : ℚ
  height : ℚ
  deriving DecidableEq, Repr

/-- Initial sketch state set up in the sketch's `setup`: idle, no
transition in flight, green color, amplitude 30. -/
def initialSketchState : SketchState :=
  { phase := 0, time := 0, currentState := .idle, targetState := .idle,
    transitionProgress := 1,
    currentColor := { r := 76, g := 175, b := 80 },
    targetColor := { r := 76, g := 175, b := 80 },
    currentAmplitude := 30, targetAmplitude := 30,
    width := 400, height := 200 }

/-- Per-frame update at the head of the sketch's `draw` callback, with the
frame rate as a parameter (the source fixes `rate = 60`: `frameRate(60)`,
increments of `1/60`).  It advances `time` by `1/rate` and `phase` by the
constant `0.05`; while a transition is in flight it advances
`transitionProgress` by `1/rate`, clamps it to 1 on overshoot (snapping
`currentState` to `targetState` exactly at the clamp), and interpolates
`currentColor` / `currentAmplitude` toward their targets by the eased
progress.  The drawing commands that follow in `draw` read the state but do
not change these fields. -/
def frameUpdate (rate : Nat) (st : SketchState) : SketchState :=
  if st.transitionProgress < 1 then
    { st with
      time := st.time + 1 / (rate : ℚ),
      phase := st.phase + 1 / 20,
      transitionProgress :=
        if 1 ≤ st.transitionProgress + 1 / (rate : ℚ) then 1
        else st.transitionProgress + 1 / (rate : ℚ),
      currentState :=
        if 1 ≤ st.transitionProgress + 1 / (rate : ℚ) then st.targetState
        else st.currentState,
      currentColor :=
        lerpColor st.currentColor st.targetColor
          (easeInOutCubic
            (if 1 ≤ st.transitionProgress + 1 / (rate : ℚ) then 1
             else st.transitionProgress + 1 / (rate : ℚ))),
      currentAmplitude :=
        lerp st.currentAmplitude st.targetAmplitude
          (easeInOutCubic
            (if 1 ≤ st.transitionProgress + 1 / (rate : ℚ) then 1
             else st.transitionProgress + 1 / (rate : ℚ))) }
  else
    { st with
      time := st.time + 1 / (rate : ℚ),
      phase := st.phase + 1 / 20 }

/-- Target-state selection rule from the props-update effect of
`HeartbeatCanvas` (equivalently `updateSketchStatus` in
`sketches/heartbeat.ts`): `!connected` yields `disconnected`; otherwise
`status && status.busy` yields `busy`; otherwise `idle`. -/
def deriveTarget (status : Option AgentStatus)
    (connectionState : ConnectionState) : HeartbeatState :=
  if connectionState.connected = false then .disconnected
  else if (match status with | some s => s.busy | none => false) then .busy
  else .idle

/-- Fixed defining color of each target state, from the `switch` in the
props-update effect of `HeartbeatCanvas`. -/
def targetColorFor : HeartbeatState → Color
  | .idle => { r := 76, g := 175, b := 80 }
  | .busy => { r := 244, g := 67, b := 54 }
  | .disconnected => { r := 158, g := 158, b := 158 }

/-- Fixed defining amplitude of each target state, from the same
`switch`. -/
def targetAmplitudeFor : HeartbeatState → ℚ
  | .idle => 30
  | .busy => 40
  | .disconnected => 20

/-- Props-change update of `HeartbeatCanvas` (equivalently
`updateSketchStatus` in `sketches/heartbeat.ts`): compute the new target
state; when it differs from the stored `targetState`, snap `currentState`
to the previous target, install the new target with `transitionProgress =
0` and the target's fixed color/amplitude; otherwise leave the state
untouched. -/
def updateSketchStatus (status : Option AgentStatus)
    (connectionState : ConnectionState) (st : SketchState) : SketchState :=
  let newTargetState := deriveTarget status connectionState
  if newTargetState ≠ st.targetState then
    { st with
      currentState := st.targetState,
      targetState := newTargetState,
      transitionProgress := 0,
      targetColor := targetColorFor newTargetState,
      targetAmplitude := targetAmplitudeFor newTargetState }
  else st

/-- A concrete wire document with a boolean `busy` and a positive integer
`ts` but no `model` field. -/
def docNoModel : Poller.JsonDoc :=
  { busy := some (.bool true), model := none, ts := some (.num 5),
    taskId := none, sessionKey := some (.str "agent:main:main"),
    source := some (.str "telegram") }

/-- A concrete wire document with a negative `ts` that nevertheless
carries all three fields the hook checks. -/
def docNegTs : Poller.JsonDoc :=
  { busy := some (.bool false), model := some (.str "m1"),
    ts := some (.num (-1)), taskId := none, sessionKey := none,
    source := none }

/-- A concrete valid wire document (for the hook's actual validation). -/
def docValid : Poller.JsonDoc :=
  { busy := some (.bool true), model := some (.str "m1"),
    ts := some (.num 1704067200000), taskId := some (.str "task-123"),
    sessionKey := none, source := none }

/-- The status the hook builds from `docValid`. -/
def statusValid : Poller.AgentStatus :=
  { busy := true, model := "m1", ts := 1704067200000,
    taskId := some (.str "task-123") }

namespace Poller

/-- Any outcome on which `isFailure` holds runs exactly the `catch` block:
the whole state update is `failConn` on the connection state, with the
status untouched. -/
lemma fetchStatus_eq_of_isFailure (maxFailures now : Nat)
    (r : FetchResult) (hr : isFailure r = true) (s : PollerState) :
    fetchStatus maxFailures now r s =
      { s with conn := failConn maxFailures s.conn } := by
  cases r with
  | netError => rfl
  | response ok body =>
    cases ok with
    | false => rfl
    | true =>
      cases body with
      | none => rfl
      | some d =>
        simp only [isFailure, if_true, Option.isNone_iff_eq_none] at hr
        simp [fetchStatus, hr]

/-- Folding any all-failure event list over any state preserves `status`
and `lastSuccessTime` and adds the list length to `failureCount`. -/
lemma stepList_failures_frame (maxFailures : Nat) :
    ∀ (events : List (Nat × FetchResult)),
      (∀ e ∈ events, isFailure e.2 = true) →
      ∀ s : PollerState,
        (stepList maxFailures events s).status = s.status ∧
        (stepList maxFailures events s).conn.lastSuccessTime =
          s.conn.lastSuccessTime ∧
        (stepList maxFailures events s).conn.failureCount =
          s.conn.failureCount + events.length := by
  intro events
  induction events with
  | nil => exact fun _ s => ⟨rfl, rfl, rfl⟩
  | cons e es ih =>
    intro h s
    have he : isFailure e.2 = true := h e (List.mem_cons_self e es)
    have hes : ∀ e' ∈ es, isFailure e'.2 = true :=
      fun e' he' => h e' (List.mem_cons_of_mem e he')
    have hstep : fetchStatus maxFailures e.1 e.2 s =
        { s with conn := failConn maxFailures s.conn } :=
      fetchStatus_eq_of_isFailure maxFailures e.1 e.2 he s
    have hlist : stepList maxFailures (e :: es) s =
        stepList maxFailures es (fetchStatus maxFailures e.1 e.2 s) := rfl
    rw [hlist, hstep]
    obtain ⟨h1, h2, h3⟩ := ih hes { s with conn := failConn maxFailures s.conn }
    refine ⟨h1, by simpa [failConn] using h2, ?_⟩
    simp only [failConn] at h3
    simpa [Nat.add_assoc, Nat.add_comm 1 es.length] using h3

/-- Folding any all-failure event list over a state whose `connected` flag
already agrees with the failure threshold preserves `status` and
`lastSuccessTime`, adds the list length to `failureCount`, and keeps
`connected` in agreement with the threshold. -/
lemma stepList_failures (maxFailures : Nat) :
    ∀ (events : List (Nat × FetchResult)),
      (∀ e ∈ events, isFailure e.2 = true) →
      ∀ s : PollerState,
        s.conn.connected = decide (s.conn.failureCount < maxFailures) →
        (stepList maxFailures events s).status = s.status ∧
        (stepList maxFailures events s).conn.lastSuccessTime =
          s.conn.lastSuccessTime ∧
        (stepList maxFailures events s).conn.failureCount =
          s.conn.failureCount + events.length ∧
        (stepList maxFailures events s).conn.connected =
          decide (s.conn.failureCount + events.length < maxFailures) := by
  intro events
  induction events with
  | nil =>
    intro _ s hs
    exact ⟨rfl, rfl, rfl, by simpa using hs⟩
  | cons e es ih =>
    intro h s hs
    have he : isFailure e.2 = true := h e (List.mem_cons_self e es)
    have hes : ∀ e' ∈ es, isFailure e'.2 = true :=
      fun e' he' => h e' (List.mem_cons_of_mem e he')
    have hstep : fetchStatus maxFailures e.1 e.2 s =
        { s with conn := failConn maxFailures s.conn } :=
      fetchStatus_eq_of_isFailure maxFailures e.1 e.2 he s
    have hlist : stepList maxFailures (e :: es) s =
        stepList maxFailures es (fetchStatus maxFailures e.1 e.2 s) := rfl
    rw [hlist, hstep]
    have hinv : ({ s with conn := failConn maxFailures s.conn } :
        PollerState).conn.connected =
        decide (({ s with conn := failConn maxFailures s.conn } :
          PollerState).conn.failureCount < maxFailures) := by
      simp [failConn]
    obtain ⟨h1, h2, h3, h4⟩ := ih hes _ hinv
    refine ⟨h1, by simpa [failConn] using h2, ?_, ?_⟩
    · simp only [failConn] at h3
      simpa [Nat.add_assoc, Nat.add_comm 1 es.length] using h3
    · simp only [failConn] at h4
      simpa [Nat.add_assoc, Nat.add_comm 1 es.length] using h4

end Poller

/-- C1: the Poller's `ConnectionState` always satisfies `connected =
(failureCount < maxFailures)` (for the positive failure threshold the hook
is configured with): it holds in the initial default state, it holds after
every fetch attempt, and a run of N consecutive failures from a
`failureCount = 0` connected state leaves `failureCount` exactly N with
`connected` true exactly while N is below the threshold. -/
theorem Poller.connected_iff_failures_below_max (maxFailures : Nat)
    (hmf : 0 < maxFailures) :
    (defaultConnectionState.connected =
       decide (defaultConnectionState.failureCount < maxFailures)) ∧
    (∀ (now : Nat) (r : FetchResult) (s : PollerState),
       (fetchStatus maxFailures now r s).conn.connected =
         decide ((fetchStatus maxFailures now r s).conn.failureCount <
           maxFailures)) ∧
    (∀ (events : List (Nat × FetchResult)),
       (∀ e ∈ events, isFailure e.2 = true) →
       ∀ s : PollerState,
         s.conn.failureCount = 0 → s.conn.connected = true →
         (stepList maxFailures events s).conn.failureCount =
           events.length ∧
         (stepList maxFailures events s).conn.connected =
           decide (events.length < maxFailures)) := by
  refine ⟨by simpa [defaultConnectionState] using hmf, ?_, ?_⟩
  · intro now r s
    cases r with
    | netError => simp [fetchStatus, failConn]
    | response ok body =>
      cases ok with
      | false => simp [fetchStatus, failConn]
      | true =>
        cases body with
        | none => simp [fetchStatus, failConn]
        | some d =>
          cases hv : validateDoc d with
          | none => simp [fetchStatus, hv, failConn]
          | some st => simpa [fetchStatus, hv] using hmf
  · intro events hfail s hc0 hcon
    have hinv : s.conn.connected =
        decide (s.conn.failureCount < maxFailures) := by
      rw [hcon, hc0]
      simpa using hmf
    obtain ⟨-, -, h3, h4⟩ := stepList_failures maxFailures events hfail s hinv
    rw [hc0] at h3 h4
    constructor
    · simpa using h3
    · simpa using h4

/-- C1 witness: the invariant theorem applied at the hook's configured
threshold `maxFailures = 3`, to a run of three consecutive failures from
the default state. -/
theorem Poller.connected_iff_failures_below_max_witness :
    (Poller.stepList 3
        [(1, .netError), (2, .response false none), (3, .response true none)]
        Poller.initialPollerState).conn.failureCount = 3 ∧
      (Poller.stepList 3
        [(1, .netError), (2, .response false none), (3, .response true none)]
        Poller.initialPollerState).conn.connected = decide (3 < 3) :=
  (Poller.connected_iff_failures_below_max 3 (by decide)).2.2
    [(1, .netError), (2, .response false none), (3, .response true none)]
    (by decide) Poller.initialPollerState rfl rfl

/-- C3: every failed fetch attempt (network error, non-2xx, JSON parse
error, or schema validation error) leaves the exposed `status` and
`lastSuccessTime` unchanged and modifies only `failureCount` and
`connected`; hence after one success followed by any run of failures the
exposed status still equals the status captured at the success. -/
theorem Poller.status_durability (maxFailures : Nat) :
    (∀ (now : Nat) (r : FetchResult) (s : PollerState),
       isFailure r = true →
       (fetchStatus maxFailures now r s).status = s.status ∧
       (fetchStatus maxFailures now r s).conn.lastSuccessTime =
         s.conn.lastSuccessTime ∧
       (fetchStatus maxFailures now r s).conn.failureCount =
         s.conn.failureCount + 1 ∧
       (fetchStatus maxFailures now r s).conn.connected =
         decide (s.conn.failureCount + 1 < maxFailures)) ∧
    (∀ (now : Nat) (d : JsonDoc) (st : AgentStatus) (s : PollerState),
       validateDoc d = some st →
       ∀ events : List (Nat × FetchResult),
         (∀ e ∈ events, isFailure e.2 = true) →
         (stepList maxFailures events
            (fetchStatus maxFailures now (.response true (some d)) s)).status
           = some st ∧
         (stepList maxFailures events
            (fetchStatus maxFailures now (.response true (some d)) s)
           ).conn.lastSuccessTime = now) := by
  constructor
  · intro now r s hr
    rw [fetchStatus_eq_of_isFailure maxFailures now r hr s]
    exact ⟨rfl, rfl, rfl, rfl⟩
  · intro now d st s hv events hfail
    have hsucc : fetchStatus maxFailures now (.response true (some d)) s =
        { status := some st,
          conn := { connected := true, lastSuccessTime := now,
                    failureCount := 0 } } := by
      simp [fetchStatus, hv]
    rw [hsucc]
    obtain ⟨h1, h2, -⟩ := stepList_failures_frame maxFailures events hfail
      { status := some st,
        conn := { connected := true, lastSuccessTime := now,
                  failureCount := 0 } }
    exact ⟨h1, h2⟩

/-- C3 witness: one successful fetch of `docValid` at time 42 followed by
three failures of different kinds leaves the stored status and
`lastSuccessTime` exactly as captured at the success. -/
theorem Poller.status_durability_witness :
    (Poller.stepList 3
        [(50, .netError), (55, .response false none),
         (60, .response true (some docNoModel))]
        (Poller.fetchStatus 3 42 (.response true (some docValid))
          Poller.initialPollerState)).status = some statusValid ∧
      (Poller.stepList 3
        [(50, .netError), (55, .response false none),
         (60, .response true (some docNoModel))]
        (Poller.fetchStatus 3 42 (.response true (some docValid))
          Poller.initialPollerState)).conn.lastSuccessTime = 42 :=
  (Poller.status_durability 3).2 42 docValid statusValid
    Poller.initialPollerState (by decide)
    [(50, .netError), (55, .response false none),
     (60, .response true (some docNoModel))]
    (by decide)

/-- C4: from every prior state, a single successful fetch attempt (2xx
response whose body validates) produces exactly `connected = true`,
`failureCount = 0`, `lastSuccessTime = now`, and overwrites the exposed
status with the newly parsed document. -/
theorem Poller.success_resets (maxFailures now : Nat) (d : JsonDoc)
    (st : AgentStatus) (hv : validateDoc d = some st) (s : PollerState) :
    fetchStatus maxFailures now (.response true (some d)) s =
      { status := some st,
        conn := { connected := true, lastSuccessTime := now,
                  failureCount := 0 } } := by
  simp [fetchStatus, hv]

/-- C4 witness: the success-reset theorem applied to a concrete state with
five prior failures and a disconnected flag. -/
theorem Poller.success_resets_witness :
    Poller.fetchStatus 3 77 (.response true (some docValid))
        { status := none,
          conn := { connected := false, lastSuccessTime := 9,
                    failureCount := 5 } } =
      { status := some statusValid,
        conn := { connected := true, lastSuccessTime := 77,
                  failureCount := 0 } } :=
  Poller.success_resets 3 77 docValid statusValid (by decide)
    { status := none,
      conn := { connected := false, lastSuccessTime := 9,
                failureCount := 5 } }

/-- C2 counterexample: `docNoModel` has a boolean `busy` and a positive
integer `ts` (5, with denominator 1), yet the hook treats the attempt as a
failure because its validation also demands a string `model` field; and
`docNegTs` is accepted although its `ts` is negative.  So "success iff
boolean `busy` and positive-integer `ts`" is false of the code in both
directions, and `sessionKey` is not passed through on the accepted
document. -/
theorem Poller.validate_claim_counterexample :
    docNoModel.busy = some (.bool true) ∧
      docNoModel.ts = some (.num 5) ∧ (0 : ℚ) < 5 ∧ (5 : ℚ).den = 1 ∧
      Poller.isFailure (.response true (some docNoModel)) = true ∧
      (Poller.fetchStatus 3 100 (.response true (some docNoModel))
        Poller.initialPollerState).status = none ∧
      (Poller.fetchStatus 3 100 (.response true (some docNoModel))
        Poller.initialPollerState).conn.failureCount = 1 ∧
      docNegTs.ts = some (.num (-1)) ∧
      Poller.validateDoc docNegTs =
        some { busy := false, model := "m1", ts := -1, taskId := none } := by
  decide

/-- C2 amended: for a 2xx attempt whose body parses as JSON, the attempt
succeeds if and only if the document has a boolean `busy`, a string
`model`, and a numeric `ts` (with no positivity or integrality
requirement); on success `busy`, `model`, `ts` are copied into the stored
status and `taskId` is passed through unchecked (omitted when absent),
while `sessionKey` and `source` are not consulted; every document failing
this validation is treated as a fetch failure, not as a null status. -/
theorem Poller.validateDoc_characterization (d : JsonDoc) :
    ((validateDoc d).isSome ↔
       (∃ b, d.busy = some (.bool b)) ∧ (∃ m, d.model = some (.str m)) ∧
         (∃ t, d.ts = some (.num t))) ∧
    (∀ (b : Bool) (m : String) (t : ℚ),
       d.busy = some (.bool b) → d.model = some (.str m) →
       d.ts = some (.num t) →
       validateDoc d =
         some { busy := b, model := m, ts := t, taskId := d.taskId }) ∧
    (∀ d' : JsonDoc, d'.busy = d.busy → d'.model = d.model →
       d'.ts = d.ts → d'.taskId = d.taskId →
       validateDoc d' = validateDoc d) ∧
    (∀ (maxFailures now : Nat) (s : PollerState),
       validateDoc d = none →
       fetchStatus maxFailures now (.response true (some d)) s =
         { s with conn := failConn maxFailures s.conn }) := by
  refine ⟨?_, ?_, ?_, ?_⟩
  · constructor
    · intro hs
      unfold validateDoc at hs
      split at hs
      next b m t hb hm ht => exact ⟨⟨b, hb⟩, ⟨m, hm⟩, ⟨t, ht⟩⟩
      next => simp at hs
    · rintro ⟨⟨b, hb⟩, ⟨m, hm⟩, ⟨t, ht⟩⟩
      unfold validateDoc
      rw [hb, hm, ht]
      rfl
  · intro b m t hb hm ht
    unfold validateDoc
    rw [hb, hm, ht]
  · intro d' h1 h2 h3 h4
    unfold validateDoc
    rw [h1, h2, h3, h4]
  · intro maxFailures now s hv
    simp [fetchStatus, hv]

/-- C2 witness: the characterization applied to the concrete valid
document `docValid`, discharging the field hypotheses there. -/
theorem Poller.validateDoc_characterization_witness :
    Poller.validateDoc docValid =
      some { busy := true, model := "m1", ts := 1704067200000,
             taskId := docValid.taskId } :=
  (Poller.validateDoc_characterization docValid).2.1 true "m1" 1704067200000
    rfl rfl rfl

/-- C9: after `stopPolling` (also run by the unmount cleanup) no further
fetch attempt is ever initiated no matter how many interval firings of
simulated time pass; `stopPolling` is idempotent; and calling it on a
state with no registered timer and the polling flag down (in particular
before `startPolling`) leaves the state unchanged. -/
theorem Poller.stop_teardown :
    (∀ (p : PollerLoop) (n : Nat),
       (timerTick^[n] (stopPolling p)).fetchCount = p.fetchCount) ∧
    (∀ p : PollerLoop, stopPolling (stopPolling p) = stopPolling p) ∧
    (∀ p : PollerLoop, p.timerActive = false → p.isPolling = false →
       stopPolling p = p) := by
  refine ⟨?_, ?_, ?_⟩
  · intro p n
    have hfix : timerTick (stopPolling p) = stopPolling p := by
      simp [timerTick, stopPolling]
    rw [Function.iterate_fixed hfix n]
    rfl
  · intro p
    rfl
  · intro p h1 h2
    cases p
    simp_all [stopPolling]

/-- C9 witness: the teardown theorem applied to the initial scheduling
state, whose timer is unregistered and polling flag down. -/
theorem Poller.stop_teardown_witness :
    Poller.stopPolling Poller.initialLoop = Poller.initialLoop :=
  Poller.stop_teardown.2.2 Poller.initialLoop rfl rfl

/-- C5: for every `(status, connectionState)` pair delivered to the
animator, the derived target is `disconnected` iff `connected` is false
(regardless of any stale busy status); otherwise it is `busy` iff a status
is present with `busy = true`; otherwise `idle` (in particular an absent
status with `connected = true` yields `idle`). -/
theorem deriveTarget_spec (status : Option AgentStatus)
    (conn : ConnectionState) :
    (deriveTarget status conn = .disconnected ↔ conn.connected = false) ∧
    (conn.connected = true →
       (deriveTarget status conn = .busy ↔
          ∃ s, status = some s ∧ s.busy = true)) ∧
    (conn.connected = true → status = none →
       deriveTarget status conn = .idle) ∧
    (conn.connected = true → ∀ s, status = some s → s.busy = false →
       deriveTarget status conn = .idle) := by
  cases hc : conn.connected with
  | false =>
    rcases status with _ | s <;> simp [deriveTarget, hc]
  | true =>
    rcases status with _ | s
    · simp [deriveTarget, hc]
    · cases hb : s.busy <;> simp [deriveTarget, hc, hb]

/-- C5 witness: the derivation theorem applied to an absent status with a
connected state (yielding `idle`), discharging its hypotheses there. -/
theorem deriveTarget_spec_witness :
    deriveTarget none defaultConnectionState = .idle :=
  (deriveTarget_spec none defaultConnectionState).2.2.1 rfl rfl

/-- C7: an animator update begins a transition iff the newly computed
target differs from the stored `targetState`; when it does, `currentState`
is set to the previous target, `targetState` to the new target,
`transitionProgress` to 0, and the target color/amplitude to the fixed
constants of the new target; when the computed target equals
`targetState`, the state is left unchanged. -/
theorem updateSketchStatus_trigger (status : Option AgentStatus)
    (conn : ConnectionState) (st : SketchState) :
    (deriveTarget status conn ≠ st.targetState →
       updateSketchStatus status conn st =
         { st with
           currentState := st.targetState,
           targetState := deriveTarget status conn,
           transitionProgress := 0,
           targetColor := targetColorFor (deriveTarget status conn),
           targetAmplitude := targetAmplitudeFor (deriveTarget status conn) }) ∧
    (deriveTarget status conn = st.targetState →
       updateSketchStatus status conn st = st) := by
  constructor
  · intro h
    simp [updateSketchStatus, h]
  · intro h
    simp [updateSketchStatus, h]

/-- C7 witness: the trigger theorem applied at a concrete disconnect
delivered to the initial (idle-targeting) sketch state. -/
theorem updateSketchStatus_trigger_witness :
    updateSketchStatus none
        { connected := false, lastSuccessTime := 0, failureCount := 3 }
        initialSketchState =
      { initialSketchState with
        currentState := initialSketchState.targetState,
        targetState := .disconnected,
        transitionProgress := 0,
        targetColor := { r := 158, g := 158, b := 158 },
        targetAmplitude := 20 } :=
  (updateSketchStatus_trigger none
      { connected := false, lastSuccessTime := 0, failureCount := 3 }
      initialSketchState).1 (by decide)

/-- C10: the animator update modifies at most `currentState`,
`targetState`, `transitionProgress`, `targetColor` and `targetAmplitude`:
whether or not it begins a transition, it leaves `currentColor`,
`currentAmplitude`, `phase` and `time` (and the canvas dimensions)
unchanged, so the rendered color and amplitude never jump at the trigger. -/
theorem updateSketchStatus_frame (status : Option AgentStatus)
    (conn : ConnectionState) (st : SketchState) :
    (updateSketchStatus status conn st).currentColor = st.currentColor ∧
    (updateSketchStatus status conn st).currentAmplitude =
      st.currentAmplitude ∧
    (updateSketchStatus status conn st).phase = st.phase ∧
    (updateSketchStatus status conn st).time = st.time ∧
    (updateSketchStatus status conn st).width = st.width ∧
    (updateSketchStatus status conn st).height = st.height := by
  by_cases h : deriveTarget status conn = st.targetState <;>
    simp [updateSketchStatus, h]

/-- C8: the easing function satisfies `ease 0 = 0`, `ease 1 = 1`,
`ease (1/2) = 1/2`, and is monotonically non-decreasing on `[0, 1]`. -/
theorem easeInOutCubic_bounds_mono :
    easeInOutCubic 0 = 0 ∧ easeInOutCubic 1 = 1 ∧
    easeInOutCubic (1 / 2) = 1 / 2 ∧
    ∀ a b : ℚ, 0 ≤ a → a ≤ b → b ≤ 1 →
      easeInOutCubic a ≤ easeInOutCubic b := by
  refine ⟨by norm_num [easeInOutCubic], by norm_num [easeInOutCubic],
    by norm_num [easeInOutCubic], ?_⟩
  intro a b ha hab hb
  unfold easeInOutCubic
  rcases lt_or_le a (1 / 2) with ha2 | ha2 <;>
    rcases lt_or_le b (1 / 2) with hb2 | hb2
  · rw [if_pos ha2, if_pos hb2]
    have h1 := pow_le_pow_left₀ ha hab 3
    nlinarith
  · rw [if_pos ha2, if_neg (not_lt.mpr hb2)]
    have h1 : a ^ 3 ≤ (1 / 2 : ℚ) ^ 3 := pow_le_pow_left₀ ha ha2.le 3
    have h2 : (0 : ℚ) ≤ -2 * b + 2 := by linarith
    have h3 : (-2 * b + 2 : ℚ) ≤ 1 := by linarith
    have h4 : (-2 * b + 2 : ℚ) ^ 3 ≤ 1 := by
      calc (-2 * b + 2 : ℚ) ^ 3 ≤ 1 ^ 3 := pow_le_pow_left₀ h2 h3 3
        _ = 1 := one_pow 3
    nlinarith
  · linarith
  · rw [if_neg (not_lt.mpr ha2), if_neg (not_lt.mpr hb2)]
    have h2 : (0 : ℚ) ≤ -2 * b + 2 := by linarith
    have h3 : (-2 * b + 2 : ℚ) ≤ -2 * a + 2 := by linarith
    have h4 := pow_le_pow_left₀ h2 h3 3
    linarith

/-- C8 witness: monotonicity applied at the endpoints of the unit
interval. -/
theorem easeInOutCubic_bounds_mono_witness :
    easeInOutCubic 0 ≤ easeInOutCubic 1 :=
  easeInOutCubic_bounds_mono.2.2.2 0 1 le_rfl (by norm_num) le_rfl

lemma easeInOutCubic_at_one : easeInOutCubic 1 = 1 := by
  norm_num [easeInOutCubic]

lemma lerp_at_one (a b : ℚ) : lerp a b 1 = b := by
  unfold lerp
  ring

lemma lerpColor_at_one (c1 c2 : Color) : lerpColor c1 c2 1 = c2 := by
  cases c2
  simp [lerpColor, lerp_at_one]

/-- The per-frame update never changes the target fields. -/
lemma frameUpdate_targets (rate : Nat) (st : SketchState) :
    (frameUpdate rate st).targetState = st.targetState ∧
    (frameUpdate rate st).targetColor = st.targetColor ∧
    (frameUpdate rate st).targetAmplitude = st.targetAmplitude := by
  unfold frameUpdate
  split <;> exact ⟨rfl, rfl, rfl⟩

/-- A mid-flight frame (progress `k/rate` with `k + 1 < rate`) advances
the progress to `(k+1)/rate` and leaves `currentState` alone. -/
lemma frameUpdate_progress_mid (rate : Nat) (hr : 0 < rate)
    (st : SketchState) (k : Nat) (hp : st.transitionProgress = (k : ℚ) / rate)
    (hk : k + 1 < rate) :
    (frameUpdate rate st).transitionProgress = ((k : ℚ) + 1) / rate ∧
    (frameUpdate rate st).currentState = st.currentState := by
  have hrq : (0 : ℚ) < rate := by exact_mod_cast hr
  have hlt : st.transitionProgress < 1 := by
    rw [hp, div_lt_one hrq]
    exact_mod_cast Nat.lt_of_succ_lt hk
  have hsum : st.transitionProgress + 1 / (rate : ℚ) =
      ((k : ℚ) + 1) / rate := by
    rw [hp]
    field_simp
  have hnot : ¬ (1 ≤ st.transitionProgress + 1 / (rate : ℚ)) := by
    rw [hsum]
    push_neg
    rw [div_lt_one hrq]
    exact_mod_cast hk
  unfold frameUpdate
  rw [if_pos hlt]
  simp only [if_neg hnot]
  rw [hsum]
  refine ⟨?_, ?_⟩ <;> trivial

/-- The completing frame (progress `(rate-1)/rate`) clamps the progress to
exactly 1, snaps `currentState` to `targetState`, and, because the eased
fraction at progress 1 is 1, lands `currentColor` / `currentAmplitude`
exactly on their targets. -/
lemma frameUpdate_complete (rate : Nat) (hr : 0 < rate) (st : SketchState)
    (hp : st.transitionProgress = ((rate : ℚ) - 1) / rate) :
    (frameUpdate rate st).transitionProgress = 1 ∧
    (frameUpdate rate st).currentState = st.targetState ∧
    (frameUpdate rate st).currentColor = st.targetColor ∧
    (frameUpdate rate st).currentAmplitude = st.targetAmplitude := by
  have hrq : (0 : ℚ) < rate := by exact_mod_cast hr
  have hlt : st.transitionProgress < 1 := by
    rw [hp, div_lt_one hrq]
    linarith
  have hsum : st.transitionProgress + 1 / (rate : ℚ) = 1 := by
    rw [hp]
    field_simp
  have hge : 1 ≤ st.transitionProgress + 1 / (rate : ℚ) := le_of_eq hsum.symm
  unfold frameUpdate
  rw [if_pos hlt]
  simp only [if_pos hge]
  rw [easeInOutCubic_at_one, lerpColor_at_one, lerp_at_one]
  refine ⟨?_, ?_, ?_, ?_⟩ <;> trivial

/-- Once the progress sits at 1, a frame update only advances the `time`
and `phase` accumulators. -/
lemma frameUpdate_of_done (rate : Nat) (st : SketchState)
    (hp : st.transitionProgress = 1) :
    frameUpdate rate st =
      { st with time := st.time + 1 / (rate : ℚ),
                phase := st.phase + 1 / 20 } := by
  unfold frameUpdate
  rw [if_neg (by rw [hp]; exact lt_irrefl 1)]

/-- During the first `rate - 1` frames of a transition started at progress
0, the progress is exactly `k/rate` and neither the current nor the target
fields move. -/
lemma frameUpdate_iterate_mid (rate : Nat) (hr : 0 < rate)
    (st : SketchState) (h0 : st.transitionProgress = 0) :
    ∀ k, k < rate →
      ((frameUpdate rate)^[k] st).transitionProgress = (k : ℚ) / rate ∧
      ((frameUpdate rate)^[k] st).currentState = st.currentState ∧
      ((frameUpdate rate)^[k] st).targetState = st.targetState ∧
      ((frameUpdate rate)^[k] st).targetColor = st.targetColor ∧
      ((frameUpdate rate)^[k] st).targetAmplitude = st.targetAmplitude := by
  intro k
  induction k with
  | zero =>
    intro _
    exact ⟨by simpa using h0, rfl, rfl, rfl, rfl⟩
  | succ k ih =>
    intro hk
    obtain ⟨p1, p2, p3, p4, p5⟩ := ih (Nat.lt_of_succ_lt hk)
    rw [Function.iterate_succ_apply']
    obtain ⟨m1, m2⟩ :=
      frameUpdate_progress_mid rate hr ((frameUpdate rate)^[k] st) k p1 hk
    obtain ⟨t1, t2, t3⟩ := frameUpdate_targets rate ((frameUpdate rate)^[k] st)
    refine ⟨?_, ?_, ?_, ?_, ?_⟩
    · rw [m1]
      push_cast
      ring
    · rw [m2, p2]
    · rw [t1, p3]
    · rw [t2, p4]
    · rw [t3, p5]

/-- After exactly `rate` frames of a transition started at progress 0, the
progress is exactly 1 and the current fields have landed on the (initial)
target fields, which are themselves unchanged. -/
lemma frameUpdate_iterate_reach (rate : Nat) (hr : 0 < rate)
    (st : SketchState) (h0 : st.transitionProgress = 0) :
    ((frameUpdate rate)^[rate] st).transitionProgress = 1 ∧
    ((frameUpdate rate)^[rate] st).currentState = st.targetState ∧
    ((frameUpdate rate)^[rate] st).targetState = st.targetState ∧
    ((frameUpdate rate)^[rate] st).currentColor = st.targetColor ∧
    ((frameUpdate rate)^[rate] st).targetColor = st.targetColor ∧
    ((frameUpdate rate)^[rate] st).currentAmplitude = st.targetAmplitude ∧
    ((frameUpdate rate)^[rate] st).targetAmplitude = st.targetAmplitude := by
  obtain ⟨r, rfl⟩ : ∃ r, rate = r + 1 :=
    ⟨rate - 1, (Nat.succ_pred_eq_of_pos hr).symm⟩
  obtain ⟨p1, p2, p3, p4, p5⟩ :=
    frameUpdate_iterate_mid (r + 1) hr st h0 r (Nat.lt_succ_self r)
  rw [Function.iterate_succ_apply']
  have hp : ((frameUpdate (r + 1))^[r] st).transitionProgress =
      (((r + 1 : Nat) : ℚ) - 1) / ((r + 1 : Nat) : ℚ) := by
    rw [p1]
    push_cast
    norm_num
  obtain ⟨q1, q2, q3, q4⟩ :=
    frameUpdate_complete (r + 1) hr ((frameUpdate (r + 1))^[r] st) hp
  obtain ⟨t1, t2, t3⟩ := frameUpdate_targets (r + 1) ((frameUpdate (r + 1))^[r] st)
  exact ⟨q1, by rw [q2, p3], by rw [t1, p3], by rw [q3, p4],
    by rw [t2, p4], by rw [q4, p5], by rw [t3, p5]⟩

/-- Once the progress is 1, every further frame keeps the progress at 1
and freezes all transition fields. -/
lemma frameUpdate_iterate_done (rate : Nat) (s : SketchState)
    (hp : s.transitionProgress = 1) :
    ∀ j, ((frameUpdate rate)^[j] s).transitionProgress = 1 ∧
      ((frameUpdate rate)^[j] s).currentState = s.currentState ∧
      ((frameUpdate rate)^[j] s).targetState = s.targetState ∧
      ((frameUpdate rate)^[j] s).currentColor = s.currentColor ∧
      ((frameUpdate rate)^[j] s).targetColor = s.targetColor ∧
      ((frameUpdate rate)^[j] s).currentAmplitude = s.currentAmplitude ∧
      ((frameUpdate rate)^[j] s).targetAmplitude = s.targetAmplitude := by
  intro j
  induction j with
  | zero => exact ⟨hp, rfl, rfl, rfl, rfl, rfl, rfl⟩
  | succ j ih =>
    obtain ⟨p1, p2, p3, p4, p5, p6, p7⟩ := ih
    rw [Function.iterate_succ_apply',
      frameUpdate_of_done rate ((frameUpdate rate)^[j] s) p1]
    exact ⟨p1, p2, p3, p4, p5, p6, p7⟩

/-- C6: once a target-state change has started a transition
(`transitionProgress = 0`, base and target states distinct), running the
per-frame update with its fixed `1/rate` increment puts the progress at
exactly `k/rate` (below 1) after `k < rate` frames with `currentState`
still differing from `targetState`, makes the progress reach exactly 1 at
frame `rate` and stay there, with `currentState = targetState` at and
after that frame and never before; and at the completing frame the eased
fraction is 1, so `currentColor` / `currentAmplitude` equal their
targets. -/
theorem transition_timing (rate : Nat) (hr : 0 < rate) (st : SketchState)
    (h0 : st.transitionProgress = 0)
    (hneq : st.currentState ≠ st.targetState) :
    (∀ k, k < rate →
       ((frameUpdate rate)^[k] st).transitionProgress = (k : ℚ) / rate ∧
       ((frameUpdate rate)^[k] st).transitionProgress < 1 ∧
       ((frameUpdate rate)^[k] st).currentState ≠
         ((frameUpdate rate)^[k] st).targetState) ∧
    (∀ m, rate ≤ m →
       ((frameUpdate rate)^[m] st).transitionProgress = 1 ∧
       ((frameUpdate rate)^[m] st).currentState =
         ((frameUpdate rate)^[m] st).targetState) ∧
    ((frameUpdate rate)^[rate] st).currentColor =
      ((frameUpdate rate)^[rate] st).targetColor ∧
    ((frameUpdate rate)^[rate] st).currentAmplitude =
      ((frameUpdate rate)^[rate] st).targetAmplitude := by
  have hrq : (0 : ℚ) < rate := by exact_mod_cast hr
  obtain ⟨r1, r2, r3, r4, r5, r6, r7⟩ :=
    frameUpdate_iterate_reach rate hr st h0
  refine ⟨?_, ?_, ?_, ?_⟩
  · intro k hk
    obtain ⟨p1, p2, p3, -, -⟩ := frameUpdate_iterate_mid rate hr st h0 k hk
    refine ⟨p1, ?_, ?_⟩
    · rw [p1, div_lt_one hrq]
      exact_mod_cast hk
    · rw [p2, p3]
      exact hneq
  · intro m hm
    obtain ⟨j, rfl⟩ : ∃ j, m = j + rate :=
      ⟨m - rate, (Nat.sub_add_cancel hm).symm⟩
    rw [Function.iterate_add_apply]
    obtain ⟨d1, d2, d3, -, -, -, -⟩ :=
      frameUpdate_iterate_done rate ((frameUpdate rate)^[rate] st) r1 j
    exact ⟨d1, by rw [d2, d3, r2, r3]⟩
  · rw [r4, r5]
  · rw [r6, r7]

/-- C6 witness: the timing theorem applied at the source's frame rate 60
to the state produced by delivering a busy status to the initial idle
sketch state (which starts an idle-to-busy transition). -/
theorem transition_timing_witness :
    ((frameUpdate 60)^[60]
        (updateSketchStatus
          (some { busy := true, ts := 1704067200000, sessionKey := none,
                  source := none })
          defaultConnectionState initialSketchState)).transitionProgress
        = 1 ∧
      ((frameUpdate 60)^[60]
        (updateSketchStatus
          (some { busy := true, ts := 1704067200000, sessionKey := none,
                  source := none })
          defaultConnectionState initialSketchState)).currentState =
        ((frameUpdate 60)^[60]
          (updateSketchStatus
            (some { busy := true, ts := 1704067200000, sessionKey := none,
                    source := none })
            defaultConnectionState initialSketchState)).targetState ∧
      ((frameUpdate 60)^[60]
        (updateSketchStatus
          (some { busy := true, ts := 1704067200000, sessionKey := none,
                  source := none })
          defaultConnectionState initialSketchState)).currentColor =
        ((frameUpdate 60)^[60]
          (updateSketchStatus
            (some { busy := true, ts := 1704067200000, sessionKey := none,
                    source := none })
            defaultConnectionState initialSketchState)).targetColor := by
  have h := transition_timing 60 (by norm_num)
    (updateSketchStatus
      (some { busy := true, ts := 1704067200000, sessionKey := none,
              source := none })
      defaultConnectionState initialSketchState)
    (by decide) (by decide)
  exact ⟨(h.2.1 60 le_rfl).1, (h.2.1 60 le_rfl).2, h.2.2.1⟩
